import Mathlib

/-!
Shallow embedding of the client-side page-visit and custom-event tracker
(src/src/App.jsx and src/vite.config.js) and proofs about its behaviour.

Timestamps (`Date.now()`) are modelled as integers counting milliseconds;
dwell times (`timeSpent`) are exact rationals, matching the JavaScript
computation `(now - startTime) / 1000`.  Session storage is a partial map
from string keys to string values.  A `fetch` call is modelled by its
outcome: the promise either resolves (carrying the response's `ok` flag,
true exactly for 2xx statuses) or rejects (network error).
-/

/-- A session storage area (`sessionStorage`): a partial map from keys to
string values. -/
def SessionStore : Type := String → Option String

/-- `sessionStorage.getItem(k)`: `none` models the JavaScript `null`. -/
def sessionGetItem (st : SessionStore) (k : String) : Option String := st k

/-- `sessionStorage.setItem(k, v)`. -/
def sessionSetItem (st : SessionStore) (k v : String) : SessionStore :=
  fun q => if q = k then some v else st q

/-- The outcome of a `fetch` call: the promise resolves with a response
whose `ok` flag is true exactly for 2xx statuses, or rejects with a
network error.  A non-2xx HTTP response still resolves. -/
inductive FetchOutcome : Type
  | resolved (ok : Bool)
  | rejected
deriving DecidableEq

/-- State read and written by the `usePageTimer` hook: the session storage
and the `startTime` React state (epoch milliseconds). -/
structure TrackerState where
  storage : SessionStore
  startTime : ℤ

/-- Body of a `POST {base}/track` request: `{ page, timeSpent }`. -/
structure TrackPayload where
  page : String
  timeSpent : ℚ
deriving DecidableEq

/-- Result of one run of the `usePageTimer` effect: the updated state and
the `/track` request body, if one was issued. -/
structure NavResult where
  state : TrackerState
  emission : Option TrackPayload

/-- One run of the `useEffect` body of `usePageTimer` (App.jsx lines
25-41), triggered by a navigation change to `pathname` at time `now`:
read `prevPage` from session storage, compute `timeSpent`, POST
`{page: prevPage, timeSpent}` to `/track` when `prevPage` is truthy
(a JavaScript empty string is falsy), is not `"/analytics"`, and
`timeSpent > 0.5`; then unconditionally overwrite the stored
`currentPage` with `pathname` and reset `startTime` to `now`. -/
def usePageTimerEffect (s : TrackerState) (pathname : String) (now : ℤ) :
    NavResult :=
  let prevPage := sessionGetItem s.storage "currentPage"
  let timeSpent : ℚ := ((now : ℚ) - (s.startTime : ℚ)) / 1000
  let emission : Option TrackPayload :=
    match prevPage with
    | none => none
    | some p =>
        if p ≠ "" ∧ p ≠ "/analytics" ∧ (1 : ℚ) / 2 < timeSpent then
          some { page := p, timeSpent := timeSpent }
        else
          none
  { state :=
      { storage := sessionSetItem s.storage "currentPage" pathname
        startTime := now }
    emission := emission }

/-- A concrete storage used to instantiate theorems: every key holds
`"/"`. -/
def demoStore : SessionStore := fun _ => some "/"

/-- Nested `details` object of a custom event payload: `{ data }`. -/
structure EventDetails where
  data : String
deriving DecidableEq

/-- Body of a `POST {base}/events` request (App.jsx lines 89-95):
`{ type, details: {data}, timestamp, page, referrer }`; `referrer` is
`document.referrer || null`, so `none` models `null`. -/
structure EventPayload where
  type : String
  details : EventDetails
  timestamp : String
  page : String
  referrer : Option String
deriving DecidableEq

/-- JavaScript `String.prototype.trim()`: remove whitespace characters
from both ends of the string.  Implemented structurally over the
character list so that it evaluates inside the kernel. -/
def jsTrim (s : String) : String :=
  ⟨((s.data.dropWhile Char.isWhitespace).reverse.dropWhile
      Char.isWhitespace).reverse⟩

/-- Observable outcome of one `sendEvent` invocation: the `/events`
request body if one was issued, the `alert` messages shown, the values of
the two controlled input fields afterwards, and whether `console.error`
was called. -/
structure SendEventResult where
  request : Option EventPayload
  alerts : List String
  typeField : String
  dataField : String
  consoleErrorLogged : Bool

/-- The `sendEvent` handler (App.jsx lines 83-104), run with current input
fields `ty` and `dataStr`, current `window.location.pathname`,
`document.referrer` (the empty string when there is none) and the ISO
timestamp; `outcome` is how the awaited `fetch` behaves.  JavaScript
`!type.trim()` rejects exactly the inputs trimming to the empty string
(the only falsy string); the `try`
block clears both fields and alerts success whenever the fetch promise
resolves (even for a non-2xx response, since `res.ok` is never
inspected), and the `catch` block alerts failure and logs whenever it
rejects. -/
def sendEvent (ty dataStr pathname docReferrer nowIso : String)
    (outcome : FetchOutcome) : SendEventResult :=
  if jsTrim ty = "" then
    { request := none
      alerts := ["Please enter an event type!"]
      typeField := ty
      dataField := dataStr
      consoleErrorLogged := false }
  else
    let payload : EventPayload :=
      { type := ty
        details := { data := dataStr }
        timestamp := nowIso
        page := pathname
        referrer := if docReferrer = "" then none else some docReferrer }
    match outcome with
    | .resolved _ =>
        { request := some payload
          alerts := ["✅ Event sent successfully!"]
          typeField := ""
          dataField := ""
          consoleErrorLogged := false }
    | .rejected =>
        { request := some payload
          alerts := ["❌ Failed to send event — check backend connection!"]
          typeField := ty
          dataField := dataStr
          consoleErrorLogged := true }

/-- Observable effect of the continuation attached to the fire-and-forget
`/track` fetch (App.jsx lines 32-36).  The only attached handler is
`.catch((e) => console.error(...))`: a rejected promise is logged; a
resolved promise runs no handler at all, whatever its HTTP status, since
`res.ok` is never inspected; nothing is rethrown and the caller drops the
promise. -/
structure TrackDeliveryResult where
  consoleErrorLogged : Bool
  thrownToCaller : Bool
deriving DecidableEq

/-- How the `/track` fetch continuation reacts to each fetch outcome. -/
def trackFetchHandler : FetchOutcome → TrackDeliveryResult
  | .resolved _ => { consoleErrorLogged := false, thrownToCaller := false }
  | .rejected => { consoleErrorLogged := true, thrownToCaller := false }

/-- The three values of the backend connectivity indicator
(`useState("checking")` and the two `setBackendStatus` calls). -/
inductive BackendStatus : Type
  | checking
  | online
  | offline
deriving DecidableEq

/-- Initial value of the indicator: `useState("checking")` (App.jsx
line 61). -/
def initialBackendStatus : BackendStatus := BackendStatus.checking

/-- The `checkBackend` probe (App.jsx lines 68-79): a 2xx response
(`res.ok`) sets `online`; any other response sets `offline`; a rejected
fetch is caught and sets `offline`. -/
def checkBackend : FetchOutcome → BackendStatus
  | .resolved true => BackendStatus.online
  | .resolved false => BackendStatus.offline
  | .rejected => BackendStatus.offline

/-- The indicator's full history for one application run whose probe has
outcome `o`: the initial value followed by the probe's single update. -/
def backendStatusTrace (o : FetchOutcome) : List BackendStatus :=
  [initialBackendStatus, checkBackend o]

/-- The hardcoded fallback collector URL (App.jsx line 16). -/
def defaultApiBase : String :=
  "https://web-analysis-backend-server.onrender.com"

/-- `import.meta.env.VITE_API_URL || default` (App.jsx line 16): an
unset variable (`undefined`) and an empty string are both falsy, so both
fall back to the hardcoded default. -/
def API_BASE (env : Option String) : String :=
  match env with
  | some v => if v = "" then defaultApiBase else v
  | none => defaultApiBase

/-- `API_BASE.replace(/\/api$/, "")` (App.jsx line 70): remove one
trailing `"/api"` when present.  Implemented structurally over the
character list so that it evaluates inside the kernel. -/
def stripApiSuffix (s : String) : String :=
  if s.data.reverse.take 4 = "/api".data.reverse then
    ⟨(s.data.reverse.drop 4).reverse⟩
  else s

/-- Target of the connectivity probe's GET (App.jsx line 70):
`` `${API_BASE.replace(/\/api$/, "")}/` ``. -/
def probeUrl (env : Option String) : String :=
  stripApiSuffix (API_BASE env) ++ "/"

/-- The whole application state relevant to the two submission decisions:
the session storage, the timer's `startTime`, the two controlled input
fields, and the advisory `backendStatus` indicator. -/
structure AppState where
  storage : SessionStore
  startTime : ℤ
  typeField : String
  dataField : String
  backendStatus : BackendStatus

/-- The tracker-visible part of an application state. -/
def trackerOf (s : AppState) : TrackerState :=
  { storage := s.storage, startTime := s.startTime }

/-- All `/track` request bodies issued across a sequence of navigation
changes `(path, time)`, threading the tracker state. -/
def runNavigation (t : TrackerState) :
    List (String × ℤ) → List TrackPayload
  | [] => []
  | (p, now) :: rest =>
      ((usePageTimerEffect t p now).emission).toList ++
        runNavigation (usePageTimerEffect t p now).state rest

/-- The `/track` submissions an application state produces on a given
navigation sequence. -/
def trackSubmissions (s : AppState) (navs : List (String × ℤ)) :
    List TrackPayload :=
  runNavigation (trackerOf s) navs

/-- The `/events` request body an application state produces on one
`sendEvent` invocation, if any. -/
def eventSubmission (s : AppState)
    (pathname docReferrer nowIso : String) (o : FetchOutcome) :
    Option EventPayload :=
  (sendEvent s.typeField s.dataField pathname docReferrer nowIso o).request

/-- Stripping after appending `"/api"` recovers the original string. -/
theorem stripApiSuffix_append (pre : String) :
    stripApiSuffix (pre ++ "/api") = pre := by
  unfold stripApiSuffix
  have hdata : (pre ++ "/api").data = pre.data ++ "/api".data := rfl
  rw [hdata, List.reverse_append]
  have hlen : ("/api".data.reverse).length = 4 := by decide
  rw [if_pos]
  · have h4 : ("/api".data.reverse ++ pre.data.reverse).drop 4
        = pre.data.reverse := by
      calc ("/api".data.reverse ++ pre.data.reverse).drop 4
          = ("/api".data.reverse ++ pre.data.reverse).drop
              ("/api".data.reverse).length := by rw [hlen]
        _ = pre.data.reverse := List.drop_left _ _
    rw [h4, List.reverse_reverse]
  · calc ("/api".data.reverse ++ pre.data.reverse).take 4
        = ("/api".data.reverse ++ pre.data.reverse).take
            ("/api".data.reverse).length := by rw [hlen]
      _ = "/api".data.reverse := List.take_left _ _

/-- A string whose final four characters read `"/api"` decomposes as some
string followed by `"/api"`. -/
theorem eq_append_of_take_reverse (s : String)
    (h : s.data.reverse.take 4 = "/api".data.reverse) :
    s = ⟨(s.data.reverse.drop 4).reverse⟩ ++ "/api" := by
  have hsplit : s.data.reverse =
      "/api".data.reverse ++ s.data.reverse.drop 4 := by
    conv_lhs => rw [← List.take_append_drop 4 s.data.reverse]
    rw [h]
  have hdata : s.data = (s.data.reverse.drop 4).reverse ++ "/api".data := by
    have := congrArg List.reverse hsplit
    rwa [List.reverse_reverse, List.reverse_append, List.reverse_reverse]
      at this
  cases s with
  | mk d => exact congrArg String.mk hdata

/-- C1: across one navigation change, a `/track` POST with body
`{page: previousPage, timeSpent}` is issued if and only if a previously
recorded current page exists (under the invariant that a stored page is
never the empty string), that page is not `"/analytics"`, and the
computed `timeSpent` exceeds `0.5` seconds; a dwell time of at most
`0.5` seconds never produces a submission, and leaving `"/analytics"`
never produces a submission, regardless of dwell time. -/
theorem track_emission_iff (s : TrackerState) (pathname : String) (now : ℤ)
    (hne : ∀ p, s.storage "currentPage" = some p → p ≠ "") :
    (∀ pl : TrackPayload,
        (usePageTimerEffect s pathname now).emission = some pl ↔
          s.storage "currentPage" = some pl.page ∧
          pl.page ≠ "/analytics" ∧
          pl.timeSpent = ((now : ℚ) - (s.startTime : ℚ)) / 1000 ∧
          (1 : ℚ) / 2 < pl.timeSpent) ∧
    (((now : ℚ) - (s.startTime : ℚ)) / 1000 ≤ (1 : ℚ) / 2 →
        (usePageTimerEffect s pathname now).emission = none) ∧
    (s.storage "currentPage" = some "/analytics" →
        (usePageTimerEffect s pathname now).emission = none) := by
  unfold usePageTimerEffect sessionGetItem
  refine ⟨?_, ?_, ?_⟩
  · intro pl
    obtain ⟨pg, ts⟩ := pl
    cases hc : s.storage "currentPage" with
    | none => simp [hc]
    | some p =>
        simp only [hc]
        by_cases hcond :
            p ≠ "" ∧ p ≠ "/analytics" ∧
              (1 : ℚ) / 2 < ((now : ℚ) - (s.startTime : ℚ)) / 1000
        · rw [if_pos hcond]
          simp only [Option.some.injEq, TrackPayload.mk.injEq]
          constructor
          · rintro ⟨hp, ht⟩
            subst hp
            exact ⟨rfl, hcond.2.1, ht.symm, ht ▸ hcond.2.2⟩
          · rintro ⟨h1, h2, h3, h4⟩
            subst h1
            exact ⟨rfl, h3.symm⟩
        · rw [if_neg hcond]
          simp only [Option.some.injEq]
          constructor
          · intro h; exact absurd h (by simp)
          · rintro ⟨h1, h2, h3, h4⟩
            exfalso
            apply hcond
            subst h1
            exact ⟨hne _ hc, h2, h3 ▸ h4⟩
  · intro hle
    cases hc : s.storage "currentPage" with
    | none => simp [hc]
    | some p =>
        simp only [hc]
        rw [if_neg]
        rintro ⟨-, -, hlt⟩
        exact absurd hle (not_le.mpr hlt)
  · intro hc
    simp only [hc]
    rw [if_neg]
    rintro ⟨-, hp, -⟩
    exact hp rfl

/-- Witness for C1 at a concrete state: previous page `"/"`, dwell
2 seconds, navigating to `"/about"`. -/
theorem track_emission_iff_witness :
    (∀ p, demoStore "currentPage" = some p → p ≠ "") ∧
    ((∀ pl : TrackPayload,
        (usePageTimerEffect ⟨demoStore, 0⟩ "/about" 2000).emission = some pl ↔
          demoStore "currentPage" = some pl.page ∧
          pl.page ≠ "/analytics" ∧
          pl.timeSpent = ((2000 : ℚ) - ((0 : ℤ) : ℚ)) / 1000 ∧
          (1 : ℚ) / 2 < pl.timeSpent) ∧
    (((2000 : ℚ) - ((0 : ℤ) : ℚ)) / 1000 ≤ (1 : ℚ) / 2 →
        (usePageTimerEffect ⟨demoStore, 0⟩ "/about" 2000).emission = none) ∧
    (demoStore "currentPage" = some "/analytics" →
        (usePageTimerEffect ⟨demoStore, 0⟩ "/about" 2000).emission = none)) := by
  have hne : ∀ p, demoStore "currentPage" = some p → p ≠ "" := by
    intro p hp
    have : p = "/" := (Option.some.inj hp).symm
    subst this
    decide
  exact ⟨hne, track_emission_iff ⟨demoStore, 0⟩ "/about" 2000 hne⟩

/-- C2: across every navigation change, whether or not a `/track` request
was issued, the stored `currentPage` is overwritten to the new path, the
`startTime` is reset to the current time, and every session-storage key
other than `currentPage` is untouched. -/
theorem nav_state_overwrite (s : TrackerState) (pathname : String) (now : ℤ) :
    sessionGetItem (usePageTimerEffect s pathname now).state.storage
        "currentPage" = some pathname ∧
    (usePageTimerEffect s pathname now).state.startTime = now ∧
    ∀ k, k ≠ "currentPage" →
        (usePageTimerEffect s pathname now).state.storage k = s.storage k := by
  refine ⟨?_, rfl, ?_⟩
  · simp [usePageTimerEffect, sessionGetItem, sessionSetItem]
  · intro k hk
    simp [usePageTimerEffect, sessionSetItem, hk]

/-- Witness for C2 at a concrete state: navigating to `"/about"` at time
7 overwrites `currentPage`, resets `startTime`, and preserves the
unrelated key `"other"`. -/
theorem nav_state_overwrite_witness :
    ("other" ≠ "currentPage") ∧
    (usePageTimerEffect ⟨demoStore, 0⟩ "/about" 7).state.storage "other" =
      demoStore "other" :=
  ⟨by decide,
    (nav_state_overwrite ⟨demoStore, 0⟩ "/about" 7).2.2 "other" (by decide)⟩

/-- C3: invoking the navigation handler again, consecutively, with the
same path as the one just recorded (any re-invocation whose own dwell is
at most the 0.5 s threshold, which covers back-to-back synchronous
re-renders) emits nothing and leaves the whole session storage, in
particular the stored `currentPage`, unchanged. -/
theorem same_path_renav_noop (s : TrackerState) (p : String)
    (now now2 : ℤ)
    (h : ((now2 : ℚ) - (now : ℚ)) / 1000 ≤ (1 : ℚ) / 2) :
    (usePageTimerEffect (usePageTimerEffect s p now).state p now2).emission
        = none ∧
    (usePageTimerEffect (usePageTimerEffect s p now).state p now2).state.storage
        = (usePageTimerEffect s p now).state.storage := by
  constructor
  · simp only [usePageTimerEffect, sessionGetItem, sessionSetItem, if_pos]
    rw [if_neg]
    rintro ⟨-, -, hlt⟩
    exact absurd h (not_le.mpr hlt)
  · funext q
    simp only [usePageTimerEffect, sessionSetItem]
    by_cases hq : q = "currentPage" <;> simp [hq]

/-- Witness for C3: immediate re-invocation (same timestamp) with the
path just recorded. -/
theorem same_path_renav_noop_witness :
    (((5 : ℤ) : ℚ) - ((5 : ℤ) : ℚ)) / 1000 ≤ (1 : ℚ) / 2 ∧
    ((usePageTimerEffect (usePageTimerEffect ⟨demoStore, 0⟩ "/about" 5).state
        "/about" 5).emission = none ∧
     (usePageTimerEffect (usePageTimerEffect ⟨demoStore, 0⟩ "/about" 5).state
        "/about" 5).state.storage =
       (usePageTimerEffect ⟨demoStore, 0⟩ "/about" 5).state.storage) :=
  ⟨by norm_num,
    same_path_renav_noop ⟨demoStore, 0⟩ "/about" 5 5 (by norm_num)⟩

/-- C4: submitting a custom event whose type trims to the empty string
issues no `/events` request regardless of what the network would have
done, surfaces exactly the validation warning, and leaves both input
fields unchanged. -/
theorem empty_type_no_request (ty dataStr pathname docReferrer nowIso : String)
    (o : FetchOutcome) (h : jsTrim ty = "") :
    (sendEvent ty dataStr pathname docReferrer nowIso o).request = none ∧
    (sendEvent ty dataStr pathname docReferrer nowIso o).alerts =
      ["Please enter an event type!"] ∧
    (sendEvent ty dataStr pathname docReferrer nowIso o).typeField = ty ∧
    (sendEvent ty dataStr pathname docReferrer nowIso o).dataField = dataStr := by
  simp [sendEvent, h]

/-- Witness for C4: a whitespace-only type with a pending network that
would have succeeded. -/
theorem empty_type_no_request_witness :
    jsTrim "   " = "" ∧
    ((sendEvent "   " "d" "/" "" "t" (FetchOutcome.resolved true)).request
        = none ∧
     (sendEvent "   " "d" "/" "" "t" (FetchOutcome.resolved true)).alerts =
       ["Please enter an event type!"] ∧
     (sendEvent "   " "d" "/" "" "t" (FetchOutcome.resolved true)).typeField
        = "   " ∧
     (sendEvent "   " "d" "/" "" "t" (FetchOutcome.resolved true)).dataField
        = "d") :=
  ⟨by decide,
    empty_type_no_request "   " "d" "/" "" "t" (FetchOutcome.resolved true)
      (by decide)⟩

/-- C5: for a non-empty (after trimming) event type, a submission whose
fetch promise resolves clears both input fields and alerts success, while
one whose fetch promise rejects leaves both fields unchanged and alerts
failure. -/
theorem send_outcome_fields (ty dataStr pathname docReferrer nowIso : String)
    (h : jsTrim ty ≠ "") :
    (∀ ok : Bool,
      (sendEvent ty dataStr pathname docReferrer nowIso
          (FetchOutcome.resolved ok)).typeField = "" ∧
      (sendEvent ty dataStr pathname docReferrer nowIso
          (FetchOutcome.resolved ok)).dataField = "" ∧
      (sendEvent ty dataStr pathname docReferrer nowIso
          (FetchOutcome.resolved ok)).alerts =
        ["✅ Event sent successfully!"]) ∧
    ((sendEvent ty dataStr pathname docReferrer nowIso
        FetchOutcome.rejected).typeField = ty ∧
     (sendEvent ty dataStr pathname docReferrer nowIso
        FetchOutcome.rejected).dataField = dataStr ∧
     (sendEvent ty dataStr pathname docReferrer nowIso
        FetchOutcome.rejected).alerts =
       ["❌ Failed to send event — check backend connection!"]) := by
  constructor
  · intro ok
    simp [sendEvent, h]
  · simp [sendEvent, h]

/-- Witness for C5: the type `"click"` with a resolving and a rejecting
fetch. -/
theorem send_outcome_fields_witness :
    jsTrim "click" ≠ "" ∧
    ((∀ ok : Bool,
      (sendEvent "click" "d" "/" "" "t"
          (FetchOutcome.resolved ok)).typeField = "" ∧
      (sendEvent "click" "d" "/" "" "t"
          (FetchOutcome.resolved ok)).dataField = "" ∧
      (sendEvent "click" "d" "/" "" "t"
          (FetchOutcome.resolved ok)).alerts =
        ["✅ Event sent successfully!"]) ∧
    ((sendEvent "click" "d" "/" "" "t"
        FetchOutcome.rejected).typeField = "click" ∧
     (sendEvent "click" "d" "/" "" "t"
        FetchOutcome.rejected).dataField = "d" ∧
     (sendEvent "click" "d" "/" "" "t"
        FetchOutcome.rejected).alerts =
       ["❌ Failed to send event — check backend connection!"])) :=
  ⟨by decide, send_outcome_fields "click" "d" "/" "" "t" (by decide)⟩

/-- C10: every `/events` request body carries `referrer = null` (not the
empty string) exactly when `document.referrer` is empty, carries the
referrer string otherwise, and always carries `details.data` as the data
field's string, the empty string included. -/
theorem event_payload_shape (ty dataStr pathname docReferrer nowIso : String)
    (o : FetchOutcome) (pl : EventPayload)
    (h : (sendEvent ty dataStr pathname docReferrer nowIso o).request = some pl) :
    (docReferrer = "" → pl.referrer = none) ∧
    (docReferrer ≠ "" → pl.referrer = some docReferrer) ∧
    pl.details.data = dataStr := by
  by_cases ht : jsTrim ty = ""
  · unfold sendEvent at h
    rw [if_pos ht] at h
    exact absurd h (by simp)
  · unfold sendEvent at h
    rw [if_neg ht] at h
    have hpl :
        pl = { type := ty
               details := { data := dataStr }
               timestamp := nowIso
               page := pathname
               referrer :=
                 if docReferrer = "" then none else some docReferrer } := by
      cases o with
      | resolved ok => exact (Option.some.inj h).symm
      | rejected => exact (Option.some.inj h).symm
    subst hpl
    refine ⟨?_, ?_, rfl⟩
    · intro hr
      simp [hr]
    · intro hr
      simp [hr]

/-- Witness for C10: a dispatched event with an empty `document.referrer`
and a blank data field. -/
theorem event_payload_shape_witness :
    (sendEvent "click" "" "/" "" "t" (FetchOutcome.resolved true)).request =
      some { type := "click"
             details := { data := "" }
             timestamp := "t"
             page := "/"
             referrer := none } ∧
    ((("" : String) = "" →
        (Option.none : Option String) = none) ∧
     ((("" : String) ≠ "" →
        (Option.none : Option String) = some "") ∧
      ("" : String) = "")) := by
  have h : (sendEvent "click" "" "/" "" "t"
      (FetchOutcome.resolved true)).request =
      some { type := "click"
             details := { data := "" }
             timestamp := "t"
             page := "/"
             referrer := none } := by decide
  refine ⟨h, ?_⟩
  have h2 := event_payload_shape "click" "" "/" "" "t"
    (FetchOutcome.resolved true)
    { type := "click"
      details := { data := "" }
      timestamp := "t"
      page := "/"
      referrer := none } h
  exact ⟨h2.1, h2.2.1, h2.2.2⟩

/-- C6 counterexample: a `/track` submission answered with a non-2xx
response is NOT logged to the diagnostic channel — `fetch` only rejects
on network errors, and the code attaches nothing but a `.catch`
handler. -/
theorem track_non2xx_unlogged_cex :
    ¬ (trackFetchHandler (FetchOutcome.resolved false)).consoleErrorLogged
        = true := by
  decide

/-- C6 amended: in the fire-and-forget timing path, every network failure
(rejected fetch) is caught and logged to the diagnostic channel, a non-2xx
response is neither logged nor thrown, and in no outcome is anything
thrown to the caller, who never observes delivery success or failure. -/
theorem track_failure_handling :
    ∀ o : FetchOutcome,
      (trackFetchHandler o).thrownToCaller = false ∧
      ((trackFetchHandler o).consoleErrorLogged = true ↔
        o = FetchOutcome.rejected) := by
  intro o
  cases o with
  | resolved ok => simp [trackFetchHandler]
  | rejected => simp [trackFetchHandler]

/-- C7: the connectivity status starts as `checking`, and for every probe
outcome the trace is exactly `checking` followed by one terminal state,
which is `online` precisely on a 2xx response and `offline` precisely on
a non-2xx response or network error; the terminal state is never
`checking` again, and no other state exists. -/
theorem backend_status_lifecycle :
    initialBackendStatus = BackendStatus.checking ∧
    ∀ o : FetchOutcome,
      (backendStatusTrace o).head? = some BackendStatus.checking ∧
      backendStatusTrace o = [BackendStatus.checking, checkBackend o] ∧
      checkBackend o ≠ BackendStatus.checking ∧
      (checkBackend o = BackendStatus.online ↔
        o = FetchOutcome.resolved true) ∧
      (checkBackend o = BackendStatus.offline ↔
        o ≠ FetchOutcome.resolved true) := by
  refine ⟨rfl, ?_⟩
  intro o
  cases o with
  | resolved ok =>
      cases ok <;>
        simp [backendStatusTrace, initialBackendStatus, checkBackend]
  | rejected =>
      simp [backendStatusTrace, initialBackendStatus, checkBackend]

/-- C8: the collector base URL is the supplied configuration value when
one is set (to a non-empty string) and the hardcoded default when unset;
and for every environment, the connectivity probe's GET target is the
base with one trailing `"/api"` removed, followed by `"/"`. -/
theorem api_base_and_probe_url :
    (∀ v : String, v ≠ "" → API_BASE (some v) = v) ∧
    API_BASE none = defaultApiBase ∧
    (∀ (env : Option String) (pre : String),
        API_BASE env = pre ++ "/api" → probeUrl env = pre ++ "/") ∧
    (∀ env : Option String,
        (∀ pre : String, API_BASE env ≠ pre ++ "/api") →
        probeUrl env = API_BASE env ++ "/") := by
  refine ⟨?_, rfl, ?_, ?_⟩
  · intro v hv
    simp [API_BASE, hv]
  · intro env pre hb
    unfold probeUrl
    rw [hb, stripApiSuffix_append]
  · intro env hnot
    unfold probeUrl
    congr 1
    unfold stripApiSuffix
    rw [if_neg]
    intro hc
    exact hnot _ (eq_append_of_take_reverse _ hc)

/-- Witness for C8: a configured base ending in `"/api"` and the default
base.  The probe strips the suffix in the first case. -/
theorem api_base_and_probe_url_witness :
    (("http://h/api" : String) ≠ "" ∧
      API_BASE (some "http://h/api") = "http://h/api") ∧
    (API_BASE (some "http://h/api") = "http://h" ++ "/api" ∧
      probeUrl (some "http://h/api") = "http://h" ++ "/") :=
  ⟨⟨by decide, api_base_and_probe_url.1 "http://h/api" (by decide)⟩,
    ⟨by decide,
      api_base_and_probe_url.2.2.1 (some "http://h/api") "http://h"
        (by decide)⟩⟩

/-- C9: the connectivity status is advisory only: two application states
that agree on everything except `backendStatus` produce identical `/track`
submissions on every navigation sequence and identical `/events`
submissions on every custom-event invocation. -/
theorem backend_status_noninterference (s1 s2 : AppState)
    (hst : s1.storage = s2.storage)
    (hti : s1.startTime = s2.startTime)
    (hty : s1.typeField = s2.typeField)
    (hda : s1.dataField = s2.dataField) :
    (∀ navs : List (String × ℤ),
        trackSubmissions s1 navs = trackSubmissions s2 navs) ∧
    (∀ (pathname docReferrer nowIso : String) (o : FetchOutcome),
        eventSubmission s1 pathname docReferrer nowIso o =
          eventSubmission s2 pathname docReferrer nowIso o) := by
  obtain ⟨st1, t1, ty1, d1, b1⟩ := s1
  obtain ⟨st2, t2, ty2, d2, b2⟩ := s2
  simp only at hst hti hty hda
  subst hst
  subst hti
  subst hty
  subst hda
  exact ⟨fun _ => rfl, fun _ _ _ _ => rfl⟩

/-- Witness for C9: two states identical except that one believes the
backend is online and the other believes it is offline. -/
theorem backend_status_noninterference_witness :
    ((AppState.mk demoStore 0 "click" "d" BackendStatus.online).storage =
      (AppState.mk demoStore 0 "click" "d" BackendStatus.offline).storage) ∧
    (trackSubmissions
        (AppState.mk demoStore 0 "click" "d" BackendStatus.online)
        [("/about", 2000)] =
      trackSubmissions
        (AppState.mk demoStore 0 "click" "d" BackendStatus.offline)
        [("/about", 2000)]) ∧
    (eventSubmission
        (AppState.mk demoStore 0 "click" "d" BackendStatus.online)
        "/" "" "t" FetchOutcome.rejected =
      eventSubmission
        (AppState.mk demoStore 0 "click" "d" BackendStatus.offline)
        "/" "" "t" FetchOutcome.rejected) :=
  ⟨rfl,
    (backend_status_noninterference
        (AppState.mk demoStore 0 "click" "d" BackendStatus.online)
        (AppState.mk demoStore 0 "click" "d" BackendStatus.offline)
        rfl rfl rfl rfl).1 [("/about", 2000)],
    (backend_status_noninterference
        (AppState.mk demoStore 0 "click" "d" BackendStatus.online)
        (AppState.mk demoStore 0 "click" "d" BackendStatus.offline)
        rfl rfl rfl rfl).2 "/" "" "t" FetchOutcome.rejected⟩
